import Mathlib

/-!
Verification of the validator / derivation layer of `ashmatics_datamodels`.

The Lean definitions below are a shallow embedding of the Python source:

* `src/ashmatics_datamodels/fda/enums.py` (`ClearanceType.from_k_number`)
* `src/ashmatics_datamodels/common/validators.py`
  (`validate_country_code`, `validate_k_number_format`)
* `src/ashmatics_datamodels/fda/clearances.py`
  (`FDA_510kClearance.is_cleared`, `FDA_DeNovoClearance.validate_den`)
* `src/ashmatics_datamodels/fda/manufacturers.py`
  (`is_us_based`, `applicant_is_manufacturer`, `display_name`)
* `src/ashmatics_datamodels/fda/classifications.py`
  (`FDA_DeviceClassification.requires_pma`)

Strings are modelled as Lean `String` (a list of characters), with the
Python string primitives `upper`, `lower`, `strip`, `startswith` modelled
character-wise over ASCII: `Char.toUpper` / `Char.toLower` agree with the
Python methods on ASCII text, and `Char.isWhitespace` covers the common
whitespace characters stripped by Python `str.strip()`.  A Python function
that raises `ValueError` is embedded as an `Except String` computation
whose error carries the message text (quotes inside the original f-string
messages are elided).
-/

/-- Model of Python `str.upper()` (character-wise, ASCII). -/
def pyUpper (s : String) : String :=
  String.mk (s.data.map Char.toUpper)

/-- Model of Python `str.lower()` (character-wise, ASCII). -/
def pyLower (s : String) : String :=
  String.mk (s.data.map Char.toLower)

/-- Model of Python `str.strip()`: drop leading and trailing whitespace. -/
def pyStrip (s : String) : String :=
  String.mk (((s.data.dropWhile Char.isWhitespace).reverse.dropWhile Char.isWhitespace).reverse)

/-- Model of Python `s.startswith(p)`. -/
def pyStartsWith (s p : String) : Bool :=
  p.data.isPrefixOf s.data

/-- Two `startswith` tests against patterns with different first characters
cannot both succeed. -/
theorem pyStartsWith_head_false {s : String} {c d : Char} {cs ds : List Char}
    (hcd : c ≠ d) (h : pyStartsWith s (String.mk (c :: cs)) = true) :
    pyStartsWith s (String.mk (d :: ds)) = false := by
  simp only [pyStartsWith, List.isPrefixOf_iff_prefix] at h
  simp only [pyStartsWith, Bool.eq_false_iff, ne_eq, List.isPrefixOf_iff_prefix]
  intro hq
  obtain ⟨t1, ht1⟩ := h
  obtain ⟨t2, ht2⟩ := hq
  rw [← ht1] at ht2
  rw [List.cons_append, List.cons_append] at ht2
  injection ht2 with h1 _
  exact hcd h1.symm

/-- FDA premarket clearance pathway types (fda/enums.py, `ClearanceType`). -/
inductive ClearanceType where
  | PMA
  | K510
  | DE_NOVO
  | HDE
  | EUA
  deriving DecidableEq

/-- Embedding of `ClearanceType.from_k_number` (fda/enums.py, lines 44-65):
uppercase the input, then test the prefixes `K`/`BK`, `DEN`, `P`, `H` in
that order; otherwise raise `ValueError`. -/
def ClearanceType.from_k_number (k_number : String) : Except String ClearanceType :=
  let k_upper := pyUpper k_number
  if pyStartsWith k_upper "K" || pyStartsWith k_upper "BK" then
    Except.ok ClearanceType.K510
  else if pyStartsWith k_upper "DEN" then
    Except.ok ClearanceType.DE_NOVO
  else if pyStartsWith k_upper "P" then
    Except.ok ClearanceType.PMA
  else if pyStartsWith k_upper "H" then
    Except.ok ClearanceType.HDE
  else
    Except.error ("Cannot determine clearance type from: " ++ k_number)

/-- C1: for every non-empty identifier string, `ClearanceType.from_k_number`
uppercases the input and classifies by prefix in priority order: `K` or `BK`
gives 510(k); `DEN` gives De Novo; `P` gives PMA; `H` gives HDE; any other
prefix raises an error reporting the offending input; and no input ever
yields `EUA`. -/
theorem from_k_number_prefix_classification (k : String) (hk : k ≠ "") :
    (pyStartsWith (pyUpper k) "K" = true ∨ pyStartsWith (pyUpper k) "BK" = true →
        ClearanceType.from_k_number k = Except.ok ClearanceType.K510)
  ∧ (pyStartsWith (pyUpper k) "DEN" = true →
        ClearanceType.from_k_number k = Except.ok ClearanceType.DE_NOVO)
  ∧ (pyStartsWith (pyUpper k) "P" = true →
        ClearanceType.from_k_number k = Except.ok ClearanceType.PMA)
  ∧ (pyStartsWith (pyUpper k) "H" = true →
        ClearanceType.from_k_number k = Except.ok ClearanceType.HDE)
  ∧ (pyStartsWith (pyUpper k) "K" = false → pyStartsWith (pyUpper k) "BK" = false →
     pyStartsWith (pyUpper k) "DEN" = false → pyStartsWith (pyUpper k) "P" = false →
     pyStartsWith (pyUpper k) "H" = false →
        ClearanceType.from_k_number k =
          Except.error ("Cannot determine clearance type from: " ++ k))
  ∧ ClearanceType.from_k_number k ≠ Except.ok ClearanceType.EUA := by
  refine ⟨?_, ?_, ?_, ?_, ?_, ?_⟩
  · intro h
    rcases h with h | h <;> simp [ClearanceType.from_k_number, h]
  · intro h
    have hK : pyStartsWith (pyUpper k) "K" = false :=
      pyStartsWith_head_false (by decide) h
    have hBK : pyStartsWith (pyUpper k) "BK" = false :=
      pyStartsWith_head_false (by decide) h
    simp [ClearanceType.from_k_number, hK, hBK, h]
  · intro h
    have hK : pyStartsWith (pyUpper k) "K" = false :=
      pyStartsWith_head_false (by decide) h
    have hBK : pyStartsWith (pyUpper k) "BK" = false :=
      pyStartsWith_head_false (by decide) h
    have hDEN : pyStartsWith (pyUpper k) "DEN" = false :=
      pyStartsWith_head_false (by decide) h
    simp [ClearanceType.from_k_number, hK, hBK, hDEN, h]
  · intro h
    have hK : pyStartsWith (pyUpper k) "K" = false :=
      pyStartsWith_head_false (by decide) h
    have hBK : pyStartsWith (pyUpper k) "BK" = false :=
      pyStartsWith_head_false (by decide) h
    have hDEN : pyStartsWith (pyUpper k) "DEN" = false :=
      pyStartsWith_head_false (by decide) h
    have hP : pyStartsWith (pyUpper k) "P" = false :=
      pyStartsWith_head_false (by decide) h
    simp [ClearanceType.from_k_number, hK, hBK, hDEN, hP, h]
  · intro h1 h2 h3 h4 h5
    simp [ClearanceType.from_k_number, h1, h2, h3, h4, h5]
  · intro h
    simp only [ClearanceType.from_k_number] at h
    repeat any_goals split at h
    all_goals simp at h

/-- Witness for C1 at the concrete input `DEN180067`. -/
theorem from_k_number_prefix_classification_witness :
    ("DEN180067" : String) ≠ ""
  ∧ ClearanceType.from_k_number "DEN180067" = Except.ok ClearanceType.DE_NOVO :=
  ⟨by decide,
   (from_k_number_prefix_classification "DEN180067" (by decide)).2.1 (by decide)⟩

/-- Calendar date as stored on a clearance record (the derivations below
only ever test for its presence, never its value). -/
structure FDADate where
  year : Nat
  month : Nat
  day : Nat
  deriving DecidableEq

/-- Embedding of the fields of `FDA_510kClearance` (fda/clearances.py) that
its `is_cleared` derivation reads, in source declaration order. -/
structure FDA_510kClearance where
  k_number : String
  decision_date : Option FDADate
  decision_code : Option String
  deriving DecidableEq

/-- Embedding of `FDA_510kClearance.is_cleared` (fda/clearances.py, lines
219-225).  The Python code tests the truthiness of `decision_code`, so both
`None` and the empty string take the decision-date fallback branch. -/
def FDA_510kClearance.is_cleared (r : FDA_510kClearance) : Bool :=
  match r.decision_code with
  | some c =>
      if c ≠ "" then decide (pyUpper c = "SESE" ∨ pyUpper c = "SE")
      else r.decision_date.isSome
  | none => r.decision_date.isSome

/-- C2 counterexample: at `decision_code = some ""` with a decision date
present, the code returns `true`, while the claimed rule (`is_cleared` true
iff the uppercased decision code is in the accepted set) demands `false`. -/
theorem is_cleared_empty_code_counterexample :
    ¬ (FDA_510kClearance.is_cleared
          ⟨"K240001", some ⟨2024, 1, 15⟩, some ""⟩ = true
        ↔ (pyUpper "" = "SESE" ∨ pyUpper "" = "SE")) := by
  decide

/-- C2 (amended): `is_cleared` is true iff the uppercased `decision_code`
is in `{SESE, SE}` whenever `decision_code` is present and non-empty; when
`decision_code` is absent or the empty string, it is true iff
`decision_date` is present.  In particular `decision_code = "SESE"` gives
true, `"NSE"` gives false, and with `decision_code` absent the result is
exactly the presence of `decision_date`. -/
theorem is_cleared_decision_rule (r : FDA_510kClearance) :
    (∀ c, r.decision_code = some c → c ≠ "" →
        (FDA_510kClearance.is_cleared r = true ↔
          (pyUpper c = "SESE" ∨ pyUpper c = "SE")))
  ∧ (r.decision_code = none →
        (FDA_510kClearance.is_cleared r = true ↔ r.decision_date.isSome = true))
  ∧ (r.decision_code = some "" →
        (FDA_510kClearance.is_cleared r = true ↔ r.decision_date.isSome = true))
  ∧ (r.decision_code = some "SESE" → FDA_510kClearance.is_cleared r = true)
  ∧ (r.decision_code = some "NSE" → FDA_510kClearance.is_cleared r = false)
  ∧ (r.decision_code = none → r.decision_date = none →
        FDA_510kClearance.is_cleared r = false) := by
  refine ⟨?_, ?_, ?_, ?_, ?_, ?_⟩
  · intro c hc hne
    simp [FDA_510kClearance.is_cleared, hc, hne]
  · intro hc
    simp [FDA_510kClearance.is_cleared, hc]
  · intro hc
    simp [FDA_510kClearance.is_cleared, hc]
  · intro hc
    simp [FDA_510kClearance.is_cleared, hc]
    decide
  · intro hc
    simp [FDA_510kClearance.is_cleared, hc]
    decide
  · intro hc hd
    simp [FDA_510kClearance.is_cleared, hc, hd]

/-- Witness for C2 at a concrete record with `decision_code = "SESE"`. -/
theorem is_cleared_decision_rule_witness :
    FDA_510kClearance.is_cleared ⟨"K240001", none, some "SESE"⟩ = true :=
  (is_cleared_decision_rule ⟨"K240001", none, some "SESE"⟩).2.2.2.1 rfl

/-- C9: an empty-string `decision_code` behaves exactly like an absent one:
`is_cleared` ignores it and reduces to the decision-date presence test. -/
theorem is_cleared_empty_code_is_date_fallback (k : String) (d : Option FDADate) :
    FDA_510kClearance.is_cleared ⟨k, d, some ""⟩ = d.isSome
  ∧ FDA_510kClearance.is_cleared ⟨k, d, some ""⟩ =
      FDA_510kClearance.is_cleared ⟨k, d, none⟩ := by
  constructor <;> simp [FDA_510kClearance.is_cleared]

/-- The fixed country-code allow-list from common/validators.py
(`VALID_COUNTRY_CODES`), in source order. -/
def VALID_COUNTRY_CODES : List String :=
  ["US", "CA", "MX",
   "GB", "DE", "FR", "IT", "ES", "NL", "BE", "CH", "AT", "SE", "NO", "DK",
   "FI", "IE", "PL", "CZ", "PT",
   "CN", "JP", "KR", "IN", "AU", "NZ", "SG", "HK", "TW", "TH", "MY", "ID",
   "PH", "VN",
   "BR", "AR", "CL", "CO", "PE",
   "IL", "AE", "SA", "ZA", "EG"]

/-- Embedding of `validate_country_code` (common/validators.py, lines
76-105): `None` passes through; otherwise uppercase and strip, reject a
normalized value whose length is not 2, reject a value outside the
allow-list, and return the normalized value otherwise. -/
def validate_country_code : Option String → Except String (Option String)
  | none => Except.ok none
  | some value =>
      let normalized := pyStrip (pyUpper value)
      if normalized.length ≠ 2 then
        Except.error ("Invalid country code " ++ value ++ ": must be exactly 2 characters")
      else if normalized ∉ VALID_COUNTRY_CODES then
        Except.error ("Invalid ISO 3166-1 country code " ++ value)
      else
        Except.ok (some normalized)

/-- Every entry of the allow-list has length exactly 2. -/
theorem valid_country_codes_length :
    ∀ c ∈ VALID_COUNTRY_CODES, c.length = 2 := by
  decide

/-- C4: country-code validation returns `None` for `None`; otherwise it
normalizes (uppercase, strip) and raises when the normalized length is not
2, raises when the normalized token is outside the allow-list, and returns
the normalized code without raising for every input whose normalization is
in the allow-list. -/
theorem validate_country_code_contract :
    (validate_country_code none = Except.ok none)
  ∧ (∀ v : String, (pyStrip (pyUpper v)).length ≠ 2 →
        validate_country_code (some v) =
          Except.error ("Invalid country code " ++ v ++ ": must be exactly 2 characters"))
  ∧ (∀ v : String, (pyStrip (pyUpper v)).length = 2 →
        pyStrip (pyUpper v) ∉ VALID_COUNTRY_CODES →
        validate_country_code (some v) =
          Except.error ("Invalid ISO 3166-1 country code " ++ v))
  ∧ (∀ v : String, pyStrip (pyUpper v) ∈ VALID_COUNTRY_CODES →
        validate_country_code (some v) = Except.ok (some (pyStrip (pyUpper v)))) := by
  refine ⟨rfl, ?_, ?_, ?_⟩
  · intro v h
    simp [validate_country_code, h]
  · intro v h2 hmem
    simp [validate_country_code, h2, hmem]
  · intro v hmem
    have h2 : (pyStrip (pyUpper v)).length = 2 :=
      valid_country_codes_length _ hmem
    simp [validate_country_code, h2, hmem]

/-- Witness for C4 at the concrete lowercase input `us`. -/
theorem validate_country_code_contract_witness :
    pyStrip (pyUpper "us") ∈ VALID_COUNTRY_CODES
  ∧ validate_country_code (some "us") = Except.ok (some (pyStrip (pyUpper "us"))) :=
  ⟨by decide, validate_country_code_contract.2.2.2 "us" (by decide)⟩

/-- Digit block of the K-number pattern: 6 or 7 ASCII digits. -/
def kNumberDigits (l : List Char) : Bool :=
  (l.length == 6 || l.length == 7) && l.all Char.isDigit

/-- Model of the regular expression `^(K|BK|DEN)\d{6,7}$` from
`validate_k_number_format` (common/validators.py): one of the alternatives
`K`, `BK`, `DEN` followed by 6-7 digits spanning the whole string. -/
def kNumberPattern (s : String) : Bool :=
  match s.data with
  | 'D' :: 'E' :: 'N' :: rest => kNumberDigits rest
  | 'B' :: 'K' :: rest => kNumberDigits rest
  | 'K' :: rest => kNumberDigits rest
  | _ => false

/-- Embedding of `validate_k_number_format` (common/validators.py, lines
147-179): `None` passes through; otherwise uppercase and strip, then match
the normalized value against `^(K|BK|DEN)\d{6,7}$`, raising on mismatch. -/
def validate_k_number_format : Option String → Except String (Option String)
  | none => Except.ok none
  | some value =>
      let normalized := pyStrip (pyUpper value)
      if kNumberPattern normalized then
        Except.ok (some normalized)
      else
        Except.error ("Invalid 510(k) number format " ++ value ++
          ". Expected K######, BK######, or DEN###### (6-7 digits)")

/-- C3 counterexample: the lowercase string `k123456` does not match the
(case-sensitive) pattern `^(K|BK|DEN)\d{6,7}$`, so the claim demands that
validation raise on it; the code instead normalizes first and returns
`K123456`. -/
theorem validate_k_number_lowercase_counterexample :
    kNumberPattern "k123456" = false
  ∧ validate_k_number_format (some "k123456") = Except.ok (some "K123456") :=
  ⟨by decide, rfl⟩

/-- C3 (amended): K-number validation returns the normalized (uppercased,
stripped) string for every string whose normalization matches
`^(K|BK|DEN)\d{6,7}$`, and raises for all strings whose normalization does
not match; `None` passes through as `None`. -/
theorem validate_k_number_format_contract :
    (validate_k_number_format none = Except.ok none)
  ∧ (∀ v : String, kNumberPattern (pyStrip (pyUpper v)) = true →
        validate_k_number_format (some v) = Except.ok (some (pyStrip (pyUpper v))))
  ∧ (∀ v : String, kNumberPattern (pyStrip (pyUpper v)) = false →
        validate_k_number_format (some v) =
          Except.error ("Invalid 510(k) number format " ++ v ++
            ". Expected K######, BK######, or DEN###### (6-7 digits)")) := by
  refine ⟨rfl, ?_, ?_⟩
  · intro v h
    simp [validate_k_number_format, h]
  · intro v h
    simp [validate_k_number_format, h]

/-- Witness for C3 at the concrete input `BK1234567`. -/
theorem validate_k_number_format_contract_witness :
    kNumberPattern (pyStrip (pyUpper "BK1234567")) = true
  ∧ validate_k_number_format (some "BK1234567") =
      Except.ok (some (pyStrip (pyUpper "BK1234567"))) :=
  ⟨by decide, validate_k_number_format_contract.2.1 "BK1234567" (by decide)⟩

/-- The K-number format-mismatch message is distinct from the De Novo
wrong-prefix message (the two strings cannot be equal for any offending
value, by a length count). -/
theorem k_format_message_ne_den_message (v : String) :
    ("Invalid 510(k) number format " ++ v ++
      ". Expected K######, BK######, or DEN###### (6-7 digits)") ≠
    "De Novo number must start with DEN" := by
  intro h
  have hl := congrArg String.length h
  rw [String.length_append, String.length_append] at hl
  have hbig : 34 < ("Invalid 510(k) number format " : String).length +
      (". Expected K######, BK######, or DEN###### (6-7 digits)" : String).length := by
    decide
  have h34 : ("De Novo number must start with DEN" : String).length = 34 := by
    decide
  rw [h34] at hl
  omega

/-- Embedding of `FDA_DeNovoClearance.validate_den` (fda/clearances.py,
lines 316-324): run the shared K-number format validation, then require the
normalized result to start with `DEN`, raising a distinct error otherwise. -/
def FDA_DeNovoClearance.validate_den (v : String) : Except String String :=
  match validate_k_number_format (some v) with
  | Except.error e => Except.error e
  | Except.ok none => Except.error "de_novo_number is required"
  | Except.ok (some result) =>
      if pyStartsWith result "DEN" then Except.ok result
      else Except.error "De Novo number must start with DEN"

/-- C5: De Novo number validation first applies the K-number format check;
an input passing the format check whose normalization starts with `DEN` is
returned normalized (uppercased); an input passing the format check whose
normalization does not start with `DEN` raises the wrong-prefix error; an
input failing the format check raises a distinct (format) error. -/
theorem validate_den_contract (v : String) :
    (kNumberPattern (pyStrip (pyUpper v)) = true →
     pyStartsWith (pyStrip (pyUpper v)) "DEN" = true →
        FDA_DeNovoClearance.validate_den v = Except.ok (pyStrip (pyUpper v)))
  ∧ (kNumberPattern (pyStrip (pyUpper v)) = true →
     pyStartsWith (pyStrip (pyUpper v)) "DEN" = false →
        FDA_DeNovoClearance.validate_den v =
          Except.error "De Novo number must start with DEN")
  ∧ (kNumberPattern (pyStrip (pyUpper v)) = false →
        ∃ e, FDA_DeNovoClearance.validate_den v = Except.error e
          ∧ e ≠ "De Novo number must start with DEN") := by
  refine ⟨?_, ?_, ?_⟩
  · intro h1 h2
    simp [FDA_DeNovoClearance.validate_den, validate_k_number_format, h1, h2]
  · intro h1 h2
    simp [FDA_DeNovoClearance.validate_den, validate_k_number_format, h1, h2]
  · intro h1
    refine ⟨_, ?_, k_format_message_ne_den_message v⟩
    simp [FDA_DeNovoClearance.validate_den, validate_k_number_format, h1]

/-- Witness for C5 at the concrete input `DEN123456`. -/
theorem validate_den_contract_witness :
    kNumberPattern (pyStrip (pyUpper "DEN123456")) = true
  ∧ pyStartsWith (pyStrip (pyUpper "DEN123456")) "DEN" = true
  ∧ FDA_DeNovoClearance.validate_den "DEN123456" =
      Except.ok (pyStrip (pyUpper "DEN123456")) :=
  ⟨by decide, by decide,
   (validate_den_contract "DEN123456").1 (by decide) (by decide)⟩

/-- Embedding of `FDA_ManufacturerAddress` (fda/manufacturers.py), in
source declaration order; every field is optional. -/
structure FDA_ManufacturerAddress where
  manufacturer_address_1 : Option String
  manufacturer_address_2 : Option String
  manufacturer_city : Option String
  manufacturer_state : Option String
  manufacturer_postal_code : Option String
  manufacturer_country : Option String
  deriving DecidableEq

/-- Embedding of the fields of `FDA_ManufacturerResponse`
(fda/manufacturers.py) that its derivations read, in source declaration
order (facility identifiers, contacts and website are never read by the
derived fields and are omitted). -/
structure FDA_ManufacturerResponse where
  manufacturer_name : String
  applicant : Option String
  address : Option FDA_ManufacturerAddress
  deriving DecidableEq

/-- Embedding of `FDA_ManufacturerResponse.is_us_based`
(fda/manufacturers.py, lines 157-163).  The Python code tests the
truthiness of the nested country code, so an absent or empty country code
yields `false`. -/
def FDA_ManufacturerResponse.is_us_based (r : FDA_ManufacturerResponse) : Bool :=
  match r.address with
  | some a =>
      match a.manufacturer_country with
      | some c => if c ≠ "" then decide (pyUpper c = "US") else false
      | none => false
  | none => false

/-- Embedding of `FDA_ManufacturerResponse.applicant_is_manufacturer`
(fda/manufacturers.py, lines 165-172): `None` applicant counts as the
manufacturer; otherwise compare stripped, lowercased names. -/
def FDA_ManufacturerResponse.applicant_is_manufacturer
    (r : FDA_ManufacturerResponse) : Bool :=
  match r.applicant with
  | none => true
  | some a => decide (pyLower (pyStrip a) = pyLower (pyStrip r.manufacturer_name))

/-- Embedding of `FDA_ManufacturerResponse.display_name`
(fda/manufacturers.py, lines 174-180).  The Python guard is
`if self.applicant and not self.applicant_is_manufacturer`, a truthiness
test: an empty-string applicant never triggers the `via` format. -/
def FDA_ManufacturerResponse.display_name (r : FDA_ManufacturerResponse) : String :=
  match r.applicant with
  | some a =>
      if (a != "") && !(FDA_ManufacturerResponse.applicant_is_manufacturer r) then
        r.manufacturer_name ++ " (via " ++ a ++ ")"
      else r.manufacturer_name
  | none => r.manufacturer_name

/-- C6 counterexample: with manufacturer `Acme` and applicant `some ""` the
applicant is present and differs from the manufacturer under the stated
equality rule, yet `display_name` is the bare `Acme`, not the claimed
`Acme (via )`. -/
theorem display_name_empty_applicant_counterexample :
    (⟨"Acme", some "", none⟩ : FDA_ManufacturerResponse).applicant = some ""
  ∧ FDA_ManufacturerResponse.applicant_is_manufacturer ⟨"Acme", some "", none⟩ = false
  ∧ FDA_ManufacturerResponse.display_name ⟨"Acme", some "", none⟩ = "Acme"
  ∧ ("Acme" : String) ≠ "Acme (via )" :=
  ⟨rfl, by decide, rfl, by decide⟩

/-- C6 (amended): `applicant_is_manufacturer` is true iff the applicant is
unset or the stripped, lowercased applicant equals the stripped, lowercased
manufacturer name; and `display_name` equals the manufacturer name unless
an applicant is present, non-empty, and differs under that rule, in which
case it is the `via` format. -/
theorem applicant_display_name_rule (r : FDA_ManufacturerResponse) :
    (FDA_ManufacturerResponse.applicant_is_manufacturer r = true ↔
        (r.applicant = none ∨
         ∃ a, r.applicant = some a ∧
           pyLower (pyStrip a) = pyLower (pyStrip r.manufacturer_name)))
  ∧ ((r.applicant = none ∨ r.applicant = some "" ∨
        FDA_ManufacturerResponse.applicant_is_manufacturer r = true) →
          FDA_ManufacturerResponse.display_name r = r.manufacturer_name)
  ∧ (∀ a, r.applicant = some a → a ≠ "" →
        FDA_ManufacturerResponse.applicant_is_manufacturer r = false →
          FDA_ManufacturerResponse.display_name r =
            r.manufacturer_name ++ " (via " ++ a ++ ")") := by
  refine ⟨?_, ?_, ?_⟩
  · cases ha : r.applicant with
    | none => simp [FDA_ManufacturerResponse.applicant_is_manufacturer, ha]
    | some a => simp [FDA_ManufacturerResponse.applicant_is_manufacturer, ha]
  · intro h
    rcases h with h | h | h
    · simp [FDA_ManufacturerResponse.display_name, h]
    · simp [FDA_ManufacturerResponse.display_name, h]
    · cases ha : r.applicant with
      | none => simp [FDA_ManufacturerResponse.display_name, ha]
      | some a => simp [FDA_ManufacturerResponse.display_name, ha, h]
  · intro a ha hne hdiff
    simp [FDA_ManufacturerResponse.display_name, ha, hne, hdiff]

/-- Witness for C6 at manufacturer `Subsidiary Inc`, applicant
`Parent Corporation`. -/
theorem applicant_display_name_rule_witness :
    FDA_ManufacturerResponse.display_name
        ⟨"Subsidiary Inc", some "Parent Corporation", none⟩ =
      "Subsidiary Inc" ++ " (via " ++ "Parent Corporation" ++ ")" :=
  (applicant_display_name_rule
      ⟨"Subsidiary Inc", some "Parent Corporation", none⟩).2.2
    "Parent Corporation" rfl (by decide) (by decide)

/-- C7: `is_us_based` is true iff a nested address is present and its
country code, uppercased, equals `US`; it is false (not unknown) when no
address is supplied or the address has no country code. -/
theorem is_us_based_iff (r : FDA_ManufacturerResponse) :
    (FDA_ManufacturerResponse.is_us_based r = true ↔
        ∃ a, r.address = some a ∧
          ∃ c, a.manufacturer_country = some c ∧ pyUpper c = "US")
  ∧ (r.address = none → FDA_ManufacturerResponse.is_us_based r = false)
  ∧ (∀ a, r.address = some a → a.manufacturer_country = none →
        FDA_ManufacturerResponse.is_us_based r = false) := by
  refine ⟨?_, ?_, ?_⟩
  · cases ha : r.address with
    | none => simp [FDA_ManufacturerResponse.is_us_based, ha]
    | some a =>
        cases hc : a.manufacturer_country with
        | none => simp [FDA_ManufacturerResponse.is_us_based, ha, hc]
        | some c =>
            by_cases hce : c = ""
            · subst hce
              simp [FDA_ManufacturerResponse.is_us_based, ha, hc]
              decide
            · simp [FDA_ManufacturerResponse.is_us_based, ha, hc, hce]
  · intro h
    simp [FDA_ManufacturerResponse.is_us_based, h]
  · intro a ha hc
    simp [FDA_ManufacturerResponse.is_us_based, ha, hc]

/-- Witness for C7 at a record with no address. -/
theorem is_us_based_iff_witness :
    FDA_ManufacturerResponse.is_us_based ⟨"Acme", none, none⟩ = false :=
  (is_us_based_iff ⟨"Acme", none, none⟩).2.1 rfl

/-- C10: with an empty-string applicant and a manufacturer name that is
non-empty after stripping, `applicant_is_manufacturer` is false while
`display_name` is still the bare manufacturer name (no `via` suffix),
because the display guard tests truthiness rather than presence. -/
theorem empty_applicant_display_name (r : FDA_ManufacturerResponse)
    (h1 : r.applicant = some "") (h2 : pyStrip r.manufacturer_name ≠ "") :
    FDA_ManufacturerResponse.applicant_is_manufacturer r = false
  ∧ FDA_ManufacturerResponse.display_name r = r.manufacturer_name := by
  have hm : pyLower (pyStrip r.manufacturer_name) ≠ "" := by
    intro hc
    apply h2
    have hd : ((pyStrip r.manufacturer_name).data.map Char.toLower) = ("" : String).data :=
      congrArg String.data hc
    exact String.ext (List.map_eq_nil_iff.mp hd)
  have he : pyLower (pyStrip "") = "" := rfl
  have haim : FDA_ManufacturerResponse.applicant_is_manufacturer r = false := by
    simp [FDA_ManufacturerResponse.applicant_is_manufacturer, h1, he]
    exact fun hc => hm hc.symm
  refine ⟨haim, ?_⟩
  simp [FDA_ManufacturerResponse.display_name, h1]

/-- Witness for C10 at manufacturer `Acme Devices`, applicant `some ""`. -/
theorem empty_applicant_display_name_witness :
    FDA_ManufacturerResponse.applicant_is_manufacturer
        ⟨"Acme Devices", some "", none⟩ = false
  ∧ FDA_ManufacturerResponse.display_name ⟨"Acme Devices", some "", none⟩ =
      "Acme Devices" :=
  empty_applicant_display_name ⟨"Acme Devices", some "", none⟩ rfl (by decide)

/-- FDA risk-based device classification (fda/enums.py, `FDA_DeviceClass`). -/
inductive FDA_DeviceClass where
  | CLASS_1
  | CLASS_2
  | CLASS_3
  deriving DecidableEq

/-- FDA submission pathway types (fda/enums.py, `SubmissionType`). -/
inductive SubmissionType where
  | K510
  | PMA
  | DE_NOVO
  | EXEMPT
  | HDE
  | PDP
  deriving DecidableEq

/-- Embedding of the fields of `FDA_DeviceClassification`
(fda/classifications.py) that `requires_pma` reads: the mandatory device
class and the optional stored submission type. -/
structure FDA_DeviceClassification where
  device_class : FDA_DeviceClass
  submission_type_id : Option SubmissionType
  deriving DecidableEq

/-- Embedding of `FDA_DeviceClassification.requires_pma`
(fda/classifications.py, lines 179-186): the conjunction of the two stored
field tests. -/
def FDA_DeviceClassification.requires_pma (r : FDA_DeviceClassification) : Bool :=
  decide (r.device_class = FDA_DeviceClass.CLASS_3) &&
  decide (r.submission_type_id = some SubmissionType.PMA)

/-- C8: `requires_pma` is true iff the device class is Class III and the
stored submission-type field equals PMA; it is a conjunction over the two
independently stored fields, so a Class III record with an unset
submission-type field reports false. -/
theorem requires_pma_conjunction (r : FDA_DeviceClassification) :
    (FDA_DeviceClassification.requires_pma r = true ↔
        (r.device_class = FDA_DeviceClass.CLASS_3 ∧
         r.submission_type_id = some SubmissionType.PMA))
  ∧ (r.submission_type_id = none →
        FDA_DeviceClassification.requires_pma r = false) := by
  constructor
  · simp [FDA_DeviceClassification.requires_pma]
  · intro h
    simp [FDA_DeviceClassification.requires_pma, h]

/-- Witness for C8 at a Class III record with an unset submission type. -/
theorem requires_pma_conjunction_witness :
    FDA_DeviceClassification.requires_pma ⟨FDA_DeviceClass.CLASS_3, none⟩ = false :=
  (requires_pma_conjunction ⟨FDA_DeviceClass.CLASS_3, none⟩).2 rfl
